import Mathlib

/-!
Verification of the process & job orchestration layer of the `ainur`
repository: background-job reconciliation, the foreground command runner,
the heartbeat scheduler and daemon lifecycle, and the voice recorder
session manager.  Each definition is a shallow embedding of the
corresponding TypeScript function; effects on the filesystem and OS are
made explicit as parameters (observations) and result fields.
-/

namespace Ainur

/-- The five job statuses of `exec.ts` (`JobStatus`). -/
inductive JobStatus
  | running
  | completed
  | failed
  | stopped
  | unknown
deriving DecidableEq, Repr

/-- One entry of the jobs store (`BackgroundJob` in `exec.ts`).  Optional
fields of the TypeScript interface become `Option`. -/
structure BackgroundJob where
  id : String
  command : String
  cwd : String
  pid : Int
  startedAt : String
  endedAt : Option String
  exitCode : Option Int
  status : JobStatus
  logPath : String
  statusPath : String
deriving DecidableEq, Repr

/-- What `parseStatusFile` extracts from a job's status file: the fields
that type-checked (`exitCode` when it is a number, `endedAt` when it is a
string). -/
structure StatusFileData where
  exitCode : Option Int
  endedAt : Option String
deriving DecidableEq, Repr

/-- The observable condition of a JSON file on disk: absent, present but
not valid JSON, or parsed to a payload of type `α`. -/
inductive FileContent (α : Type)
  | missing
  | parseError
  | parsed (a : α)
deriving DecidableEq, Repr

/-- Embedding of `parseStatusFile` in `exec.ts`: a missing or unparseable status file
yields the empty record `{}` (both optional fields absent); otherwise the
type-checked fields are returned. -/
def parseStatusFile : FileContent StatusFileData → StatusFileData
  | .missing => { exitCode := none, endedAt := none }
  | .parseError => { exitCode := none, endedAt := none }
  | .parsed a => a

/-- The environment a reconciliation step observes: the zero-signal pid
probe (`isAlive`), the status file found at each path, and the current
time (`new Date().toISOString()`). -/
structure JobEnv where
  alive : Int → Bool
  statusFile : String → FileContent StatusFileData
  nowIso : String

/-- Embedding of `reconcileJob` in `exec.ts`: a non-`running` job is returned
untouched; a `running` job whose pid is alive is returned untouched;
otherwise the status file decides: a numeric exit code yields
`completed`/`failed` with `endedAt` from the file or now, and no numeric
exit code yields `unknown` with `endedAt` kept or set to now. -/
def reconcileJob (env : JobEnv) (job : BackgroundJob) : BackgroundJob :=
  if job.status ≠ .running then job
  else if env.alive job.pid then job
  else
    let st := parseStatusFile (env.statusFile job.statusPath)
    match st.exitCode with
    | some code =>
      { job with
          exitCode := some code
          endedAt := some (st.endedAt.getD env.nowIso)
          status := if code = 0 then .completed else .failed }
    | none =>
      { job with
          endedAt := some (job.endedAt.getD env.nowIso)
          status := .unknown }

/-- The jobs store (`JobsState` in `exec.ts`), the JSON record modelled as
an association list keyed by job id. -/
structure JobsState where
  jobs : List (String × BackgroundJob)
deriving DecidableEq, Repr

/-- Embedding of `reconcileAllJobs` in `exec.ts`: reconcile every job in the store. -/
def reconcileAllJobs (env : JobEnv) (state : JobsState) : JobsState :=
  { jobs := state.jobs.map (fun p => (p.1, reconcileJob env p.2)) }

/-- Embedding of `loadJobsState` in `exec.ts`.  The payload of a successfully parsed
file is modelled as `Option`: `some m` when the `jobs` field is present
and an object, `none` when it is absent or not an object. -/
def loadJobsState
    (file : FileContent (Option (List (String × BackgroundJob)))) : JobsState :=
  match file with
  | .missing => { jobs := [] }
  | .parseError => { jobs := [] }
  | .parsed none => { jobs := [] }
  | .parsed (some m) => { jobs := m }

/-- Leading-whitespace removal on a character list. -/
def dropLeadingWs : List Char → List Char
  | [] => []
  | c :: rest => if c.isWhitespace then dropLeadingWs rest else c :: rest

/-- The embedding of JavaScript `String.prototype.trim()`: remove
whitespace from both ends of the string. -/
def jsTrim (s : String) : String :=
  ⟨(dropLeadingWs (dropLeadingWs s.data).reverse).reverse⟩

/-! ### Foreground command runner (`runForegroundCommand` in `exec.ts`) -/

/-- How a spawned foreground child terminates, as observed through the
Node events: the `error` event fired (the OS could not spawn the process),
or the `close` event fired with a numeric exit code or `null` (killed by a
signal). -/
inductive SpawnOutcome
  | spawnError (msg : String)
  | closed (code : Option Int)
deriving DecidableEq, Repr

/-- The result record of the foreground runner. -/
structure ForegroundResult where
  stdout : String
  stderr : String
  exitCode : Int
  timedOut : Bool
  truncated : Bool
deriving DecidableEq, Repr

/-- Embedding of `runForegroundCommand` in `exec.ts`, with the incremental capture
already folded into `capturedOut`/`capturedErr`/`truncated` and the timer
state at settlement as `timedOut`.  On the `error` event the result is
exit code `1`, `timedOut = false`, and the OS error message appended to
the captured stderr (then trimmed); on the `close` event the exit code is
`124` when the timeout fired, else the child's code, with `null` (killed)
mapped to `1`. -/
def runForegroundCommand (capturedOut capturedErr : String)
    (truncated timedOut : Bool) (outcome : SpawnOutcome) : ForegroundResult :=
  match outcome with
  | .spawnError msg =>
    { stdout := capturedOut
      stderr := jsTrim (capturedErr ++ "\n" ++ msg)
      exitCode := 1
      timedOut := false
      truncated := truncated }
  | .closed code =>
    { stdout := jsTrim capturedOut
      stderr := jsTrim capturedErr
      exitCode := if timedOut then 124 else code.getD 1
      timedOut := timedOut
      truncated := truncated }

/-! ### Heartbeat scheduler (`heartbeat.ts`) -/

/-- Association-list lookup, modelling `record[key]` on a JSON object. -/
def lookupKey {β : Type} : List (String × β) → String → Option β
  | [], _ => none
  | (k, v) :: rest, key => if k = key then some v else lookupKey rest key

/-- Association-list update, modelling `record[key] = value` on a JSON
object (overwrite in place, else append). -/
def setKey {β : Type} : List (String × β) → String → β → List (String × β)
  | [], key, value => [(key, value)]
  | (k, v) :: rest, key, value =>
    if k = key then (key, value) :: rest else (k, v) :: setKey rest key value

/-- A heartbeat task (`HeartbeatTask` in `heartbeat.ts`). -/
structure HeartbeatTask where
  key : String
  title : String
  intervalSeconds : Int
  description : Option String
deriving DecidableEq, Repr

/-- The heartbeat state (`HeartbeatState` in `heartbeat.ts`):
`lastChecks` maps task key to epoch seconds of the last attempt,
`lastResults` (optional field) maps task key to an outcome string. -/
structure HeartbeatState where
  lastChecks : List (String × Int)
  lastResults : Option (List (String × String))
deriving DecidableEq, Repr

/-- Embedding of `loadHeartbeatState` in `heartbeat.ts`: a missing or unparseable file
yields `{ lastChecks := {} }`; a parsed file has each field defaulted to
`{}` when absent or not an object (the payload models the two fields as
`Option`s, `none` meaning absent/wrongly typed). -/
def loadHeartbeatState
    (file : FileContent
      (Option (List (String × Int)) × Option (List (String × String)))) :
    HeartbeatState :=
  match file with
  | .missing => { lastChecks := [], lastResults := none }
  | .parseError => { lastChecks := [], lastResults := none }
  | .parsed (lc, lr) =>
    { lastChecks := lc.getD [], lastResults := some (lr.getD []) }

/-- One task run record (`HeartbeatTaskRun` in `heartbeat.ts`). -/
structure HeartbeatTaskRun where
  key : String
  title : String
  ok : Bool
  summary : String
  urgent : Option Bool
deriving DecidableEq, Repr

/-- What a built-in executor's asynchronous body does when invoked:
returns a run record, or throws an error with a message. -/
inductive ExecBehavior
  | ret (run : HeartbeatTaskRun)
  | thrown (msg : String)
deriving DecidableEq, Repr

/-- The keys `executeTask` dispatches on (in dispatch order). -/
def builtinKeys : List String :=
  ["moltbook", "memory_compaction", "weather", "system_health",
   "current_events"]

/-- Embedding of `executeTask` in `heartbeat.ts`: dispatch to a built-in executor when
the key is recognized, surrounding the call with a `try`/`catch` that
converts a thrown error into a run with `ok = false` and the error
message as summary; an unrecognized key succeeds trivially with a
placeholder summary. -/
def executeTask (env : String → ExecBehavior) (task : HeartbeatTask) :
    HeartbeatTaskRun :=
  if task.key ∈ builtinKeys then
    match env task.key with
    | .ret run => run
    | .thrown msg =>
      { key := task.key, title := task.title, ok := false, summary := msg,
        urgent := none }
  else
    { key := task.key, title := task.title, ok := true,
      summary := "No built-in executor for this task yet.", urgent := none }

/-- The due predicate of `runHeartbeatOnce`:
`nowSeconds - (lastChecks[key] ?? 0) >= intervalSeconds`. -/
def isDue (state : HeartbeatState) (nowSeconds : Int)
    (task : HeartbeatTask) : Bool :=
  nowSeconds - ((lookupKey state.lastChecks task.key).getD 0)
    ≥ task.intervalSeconds

/-- The `for` loop of `runHeartbeatOnce` over the due tasks: execute each
task in order, record its run, stamp `lastChecks[key] = nowSeconds` and
`lastResults[key]` with the outcome line, threading the mutated state. -/
def runDueTasks (env : String → ExecBehavior) (nowSeconds : Int)
    (nowIso : String) :
    List HeartbeatTask → HeartbeatState →
    HeartbeatState × List HeartbeatTaskRun
  | [], state => (state, [])
  | task :: rest, state =>
    let run := executeTask env task
    let state' : HeartbeatState :=
      { lastChecks := setKey state.lastChecks task.key nowSeconds
        lastResults := some (setKey (state.lastResults.getD []) task.key
          (nowIso ++ " " ++ (if run.ok then "OK" else "ERR") ++ ": "
            ++ run.summary)) }
    let result := runDueTasks env nowSeconds nowIso rest state'
    (result.1, run :: result.2)

/-- The result of one scheduling tick, with the effects made explicit:
`state` is the in-memory heartbeat state when the call returns, and
`saves` counts the calls to `saveHeartbeatState` (state-file writes). -/
structure TickResult where
  ok : Bool
  dueCount : Nat
  runs : List HeartbeatTaskRun
  state : HeartbeatState
  saves : Nat
deriving DecidableEq, Repr

/-- Embedding of `runHeartbeatOnce` in `heartbeat.ts` (the plan and the loaded state
are passed in; `nowSeconds` is `Math.floor(Date.now() / 1000)`).  If no
task is due it returns `{ ok: true, dueCount: 0, runs: [] }` immediately
with no state write; otherwise it runs the due tasks sequentially,
persists the state once, and reports `ok = runs.every(run => run.ok)`. -/
def runHeartbeatOnce (env : String → ExecBehavior)
    (plan : List HeartbeatTask) (state : HeartbeatState)
    (nowSeconds : Int) (nowIso : String) : TickResult :=
  let due := plan.filter (isDue state nowSeconds)
  if due.isEmpty then
    { ok := true, dueCount := 0, runs := [], state := state, saves := 0 }
  else
    let result := runDueTasks env nowSeconds nowIso due state
    { ok := result.2.all (fun run => run.ok)
      dueCount := due.length
      runs := result.2
      state := result.1
      saves := 1 }

/-! ### Heartbeat daemon stop (`stopHeartbeatDaemon` in `heartbeat.ts`) -/

/-- The daemon identity record (`HeartbeatRuntime` in `heartbeat.ts`). -/
structure HeartbeatRuntime where
  pid : Int
  startedAt : String
  workspace : String
deriving DecidableEq, Repr

/-- The observable outcome of `stopHeartbeatDaemon`, with the effect on
the runtime record made explicit: `cleared` records whether
`clearRuntime()` (deletion of the pid file) ran. -/
structure StopDaemonResult where
  stopped : Bool
  message : String
  cleared : Bool
deriving DecidableEq, Repr

/-- Embedding of `stopHeartbeatDaemon` in `heartbeat.ts`: no runtime record reports
not-running; otherwise `process.kill(pid, "SIGTERM")` is attempted —
on success the runtime record is cleared and the stop reported, and when
the kill throws (modelled by `killSignal` returning `.error`) the catch
returns the error message with `stopped = false` and the record is not
cleared. -/
def stopHeartbeatDaemon (runtime : Option HeartbeatRuntime)
    (killSignal : Int → Except String Unit) : StopDaemonResult :=
  match runtime with
  | none =>
    { stopped := false, message := "Heartbeat service is not running.",
      cleared := false }
  | some rt =>
    match killSignal rt.pid with
    | .ok _ =>
      { stopped := true, message := "Heartbeat service stopped.",
        cleared := true }
    | .error msg =>
      { stopped := false, message := msg, cleared := false }

/-! ### Voice recorder session manager (`memory.ts`) -/

/-- A recorder candidate (`RecorderSpec` in `memory.ts`). -/
structure RecorderSpec where
  label : String
  cmd : String
  args : List String
deriving DecidableEq, Repr

/-- The outcome of spawning one recorder candidate and waiting for the
`spawn`-or-`error` race (`waitForSpawnOrError`): the process was accepted
by the OS, or the `error` event fired first with a reason, alongside the
stderr captured so far. -/
inductive SpawnAttempt
  | accepted
  | err (reason : String) (capturedStderr : String)
deriving DecidableEq, Repr

/-- The session value `startVoiceRecording` resolves with (only the
recorder label matters to the claims). -/
structure VoiceSession where
  recorder : String
deriving DecidableEq, Repr

/-- The failure line built in the `catch` of the candidate loop:
`` `${spec.label}: ${reason}${extra ? ` (${extra})` : ""}` `` with
`extra = stderr.trim()`. -/
def candidateFailMsg (spec : RecorderSpec) (reason extra : String) :
    String :=
  spec.label ++ ": " ++ reason
    ++ (if jsTrim extra = "" then "" else " (" ++ jsTrim extra ++ ")")

/-- The `for` loop over recorder candidates in `startVoiceRecording`:
the first candidate that spawns wins; each failure overwrites the single
`lastError` variable; when the list is exhausted the loop throws
`lastError || "Failed to start voice recorder."`. -/
def recorderLoop (attempt : RecorderSpec → SpawnAttempt) :
    List RecorderSpec → String → Except String VoiceSession
  | [], lastError =>
    .error (if lastError = "" then "Failed to start voice recorder."
      else lastError)
  | spec :: rest, _lastError =>
    match attempt spec with
    | .accepted => .ok { recorder := spec.label }
    | .err reason extra =>
      recorderLoop attempt rest (candidateFailMsg spec reason extra)

/-- Embedding of `startVoiceRecording` in `memory.ts`, after the installed-command
filter has produced `candidates`: an empty candidate list throws the
no-recorder message, otherwise the candidate loop decides. -/
def startVoiceRecording (attempt : RecorderSpec → SpawnAttempt)
    (candidates : List RecorderSpec) : Except String VoiceSession :=
  if candidates = [] then
    .error "No recorder found. Install ffmpeg or sox (or arecord on Linux)."
  else recorderLoop attempt candidates ""

/-- How the recorder process ends as seen by `stopRecorderProcess`: the
`close` event with an exit code (or `null`, killed by signal), or the
`error` event. -/
inductive RecorderEnd
  | closed (code : Option Int)
  | errored (msg : String)
deriving DecidableEq, Repr

/-- Embedding of `stopRecorderProcess` in `memory.ts`: the close handler treats exit
codes `0`, `255` (ffmpeg's interrupted-by-signal value) and `null` as
success and any other code as an error; the `error` event rejects with
the error. -/
def stopRecorderProcess : RecorderEnd → Except String Unit
  | .closed none => .ok ()
  | .closed (some c) =>
    if c = 0 ∨ c = 255 then .ok ()
    else .error ("Recorder exited with code " ++ toString c)
  | .errored msg => .error msg

/-- The `stop()` capability of a voice recording session
(`startVoiceRecording` in `memory.ts`): await `stopRecorderProcess`, then
check `existsSync(filePath)` — the output file is modelled as
`Option Nat` (`none` missing, `some size` present with that byte size);
only presence is consulted.  A missing file raises the
no-audio message with the captured stderr appended when non-blank. -/
def sessionStop (recorderEnd : RecorderEnd) (file : Option Nat)
    (capturedStderr : String) : Except String Unit :=
  match stopRecorderProcess recorderEnd with
  | .error e => .error e
  | .ok _ =>
    if file.isSome then .ok ()
    else
      .error (if jsTrim capturedStderr = "" then
          "Recording did not produce audio."
        else "Recording did not produce audio. " ++ jsTrim capturedStderr)

/-! ### Sample values used to instantiate the theorems -/

/-- A freshly launched background job record. -/
def jobSample : BackgroundJob :=
  { id := "job-1700000000000-abc123", command := "sleep 5", cwd := "/ws",
    pid := 4242, startedAt := "2026-01-01T00:00:00Z", endedAt := none,
    exitCode := none, status := .running,
    logPath := "/runtime/jobs/job-1.log",
    statusPath := "/runtime/jobs/job-1.status.json" }

/-- The same job after an explicit stop request. -/
def jobStoppedSample : BackgroundJob :=
  { jobSample with
    status := .stopped
    endedAt := some "2026-01-01T00:01:00Z" }

/-- An observation where every pid is dead and every status file parses
to exit code `0`. -/
def envDeadZero : JobEnv :=
  { alive := fun _ => false
    statusFile := fun _ =>
      .parsed { exitCode := some 0, endedAt := some "2026-01-01T00:05:00Z" }
    nowIso := "2026-01-01T00:10:00Z" }

/-- A heartbeat task with a one-hour interval. -/
def taskWeather : HeartbeatTask :=
  { key := "weather", title := "Weather & Context", intervalSeconds := 3600,
    description := none }

/-- A heartbeat task with a one-minute interval. -/
def taskNews : HeartbeatTask :=
  { key := "current_events", title := "Current Events",
    intervalSeconds := 60, description := none }

/-- The empty heartbeat state (fresh workspace). -/
def stateEmpty : HeartbeatState := { lastChecks := [], lastResults := none }

/-- An executor environment in which every built-in executor throws. -/
def envThrow : String → ExecBehavior := fun _ => .thrown "boom"

/-- A recorder candidate. -/
def soxSpec : RecorderSpec := { label := "sox", cmd := "sox", args := [] }

/-- Another recorder candidate. -/
def ffmpegSpec : RecorderSpec :=
  { label := "ffmpeg", cmd := "ffmpeg", args := [] }

/-! ### Helper lemmas -/

/-- Looking up the key just set yields the new value. -/
theorem lookupKey_setKey_self {β : Type} (m : List (String × β))
    (key : String) (value : β) :
    lookupKey (setKey m key value) key = some value := by
  induction m with
  | nil => simp [setKey, lookupKey]
  | cons p rest ih =>
    by_cases h : p.1 = key
    · simp [setKey, lookupKey, h]
    · simp [setKey, lookupKey, h, ih]

/-- Setting one key leaves every other key's lookup unchanged. -/
theorem lookupKey_setKey_ne {β : Type} (m : List (String × β))
    (key other : String) (value : β) (h : other ≠ key) :
    lookupKey (setKey m key value) other = lookupKey m other := by
  induction m with
  | nil =>
    have hne : ¬ (key = other) := fun hh => h hh.symm
    simp [setKey, lookupKey, hne]
  | cons p rest ih =>
    by_cases hp : p.1 = key
    · subst hp
      have hne : ¬ (p.1 = other) := fun hh => h hh.symm
      simp [setKey, lookupKey, hne]
    · simp only [setKey, hp, if_false, lookupKey]
      by_cases ho : p.1 = other <;> simp [ho, ih]

/-- The run list produced by the due-task loop is exactly the executor
applied to each due task, in order: no failure aborts the loop. -/
theorem runDueTasks_runs (env : String → ExecBehavior) (nowSeconds : Int)
    (nowIso : String) (due : List HeartbeatTask) (state : HeartbeatState) :
    (runDueTasks env nowSeconds nowIso due state).2
      = due.map (executeTask env) := by
  induction due generalizing state with
  | nil => simp [runDueTasks]
  | cons task rest ih => simp [runDueTasks, ih]

/-- After the due-task loop, `lastChecks` maps every attempted task's key
to the tick's `nowSeconds` and every other key to its prior value. -/
theorem runDueTasks_lastChecks (env : String → ExecBehavior)
    (nowSeconds : Int) (nowIso : String) (due : List HeartbeatTask)
    (state : HeartbeatState) (key : String) :
    lookupKey (runDueTasks env nowSeconds nowIso due state).1.lastChecks key
      = if key ∈ due.map (fun t => t.key) then some nowSeconds
        else lookupKey state.lastChecks key := by
  induction due generalizing state with
  | nil => simp [runDueTasks]
  | cons task rest ih =>
    simp only [runDueTasks, ih, List.map_cons, List.mem_cons]
    by_cases hmem : key ∈ rest.map (fun t => t.key)
    · simp [hmem]
    · by_cases hk : key = task.key
      · simp [hmem, hk, lookupKey_setKey_self]
      · simp [hmem, hk, lookupKey_setKey_ne _ _ _ _ hk]

/-! ### Claim theorems -/

/-- Claim C1: for every `running` job whose pid is not alive,
reconciliation returns: when the status file parses to a numeric
`exitCode`, a record with status `completed` if that code is `0` and
`failed` otherwise, `exitCode` taken from the file and `endedAt` from the
file or the current time; when no numeric `exitCode` is available, a
record with status `unknown` and `endedAt` set to now if previously
unset. -/
theorem reconcileJob_dead_running (env : JobEnv) (job : BackgroundJob)
    (hrun : job.status = .running) (hdead : env.alive job.pid = false) :
    (∀ c, (parseStatusFile (env.statusFile job.statusPath)).exitCode = some c →
      reconcileJob env job =
        { job with
            exitCode := some c
            endedAt := some
              ((parseStatusFile (env.statusFile job.statusPath)).endedAt.getD
                env.nowIso)
            status := if c = 0 then .completed else .failed }) ∧
    ((parseStatusFile (env.statusFile job.statusPath)).exitCode = none →
      reconcileJob env job =
        { job with
            endedAt := some (job.endedAt.getD env.nowIso)
            status := .unknown }) := by
  constructor
  · intro c hc
    simp [reconcileJob, hrun, hdead, hc]
  · intro hc
    simp [reconcileJob, hrun, hdead, hc]

/-- Witness for C1: a concrete dead `running` job with a status file
recording exit code `0` reconciles to `completed` with the file's
`endedAt`. -/
theorem reconcileJob_dead_running_wit :
    reconcileJob envDeadZero jobSample =
      { jobSample with
          exitCode := some 0
          endedAt := some "2026-01-01T00:05:00Z"
          status := .completed } := by
  have h := (reconcileJob_dead_running envDeadZero jobSample rfl rfl).1 0 rfl
  simpa [envDeadZero, parseStatusFile] using h

/-- Claim C2: reconciliation is idempotent — under the same observations,
reconciling twice yields the same record as reconciling once, and a
record whose status is not `running` is returned unchanged. -/
theorem reconcileJob_idempotent (env : JobEnv) (job : BackgroundJob) :
    reconcileJob env (reconcileJob env job) = reconcileJob env job ∧
    (job.status ≠ .running → reconcileJob env job = job) := by
  have hterm : ∀ j : BackgroundJob, j.status ≠ .running →
      reconcileJob env j = j := by
    intro j hj
    simp [reconcileJob, hj]
  refine ⟨?_, hterm job⟩
  by_cases hs : job.status = .running
  · by_cases ha : env.alive job.pid
    · simp [reconcileJob, hs, ha]
    · cases hc : (parseStatusFile (env.statusFile job.statusPath)).exitCode with
      | none =>
        have h1 : reconcileJob env job =
            { job with
                endedAt := some (job.endedAt.getD env.nowIso)
                status := .unknown } := by
          simp [reconcileJob, hs, ha, hc]
        rw [h1]
        exact hterm _ (by simp)
      | some c =>
        have h1 : reconcileJob env job =
            { job with
                exitCode := some c
                endedAt := some
                  ((parseStatusFile (env.statusFile job.statusPath)).endedAt.getD
                    env.nowIso)
                status := if c = 0 then .completed else .failed } := by
          simp [reconcileJob, hs, ha, hc]
        rw [h1]
        refine hterm _ ?_
        by_cases h0 : c = 0 <;> simp [h0]
  · rw [hterm job hs]
    exact hterm job hs

/-- Witness for C2: idempotence at a concrete dead running job, and a
concrete `stopped` job is returned unchanged. -/
theorem reconcileJob_idempotent_wit :
    reconcileJob envDeadZero (reconcileJob envDeadZero jobSample) =
      reconcileJob envDeadZero jobSample ∧
    reconcileJob envDeadZero jobStoppedSample = jobStoppedSample :=
  ⟨(reconcileJob_idempotent envDeadZero jobSample).1,
   (reconcileJob_idempotent envDeadZero jobStoppedSample).2 (by decide)⟩

/-- Claim C3: in a scheduling batch, the run list is the executor applied
to every due task in order (a failure never prevents the remaining due
tasks from being attempted); a thrown executor error is caught and
converted into a run with `ok = false`; after the batch every attempted
task's `lastChecks` entry equals the tick's `nowSeconds`; the state is
persisted exactly once; and the batch `ok` is the conjunction (`all`) of
the individual runs' `ok` values. -/
theorem runHeartbeatOnce_batch (env : String → ExecBehavior)
    (plan : List HeartbeatTask) (state : HeartbeatState)
    (nowSeconds : Int) (nowIso : String) :
    (runHeartbeatOnce env plan state nowSeconds nowIso).runs
      = (plan.filter (isDue state nowSeconds)).map (executeTask env) ∧
    (∀ task msg, task.key ∈ builtinKeys → env task.key = .thrown msg →
      executeTask env task =
        { key := task.key, title := task.title, ok := false, summary := msg,
          urgent := none }) ∧
    (∀ task ∈ plan.filter (isDue state nowSeconds),
      lookupKey
        (runHeartbeatOnce env plan state nowSeconds nowIso).state.lastChecks
        task.key = some nowSeconds) ∧
    (plan.filter (isDue state nowSeconds) ≠ [] →
      (runHeartbeatOnce env plan state nowSeconds nowIso).saves = 1) ∧
    (runHeartbeatOnce env plan state nowSeconds nowIso).ok
      = (runHeartbeatOnce env plan state nowSeconds nowIso).runs.all
          (fun run => run.ok) := by
  refine ⟨?_, ?_, ?_, ?_, ?_⟩
  · by_cases hdue : (plan.filter (isDue state nowSeconds)).isEmpty
    · rw [List.isEmpty_iff] at hdue
      simp [runHeartbeatOnce, hdue]
    · simp [runHeartbeatOnce, hdue, runDueTasks_runs]
  · intro task msg hmem henv
    simp [executeTask, hmem, henv]
  · intro task htask
    have hne : ¬ (plan.filter (isDue state nowSeconds)).isEmpty := by
      rw [List.isEmpty_iff]
      intro h
      rw [h] at htask
      exact absurd htask (List.not_mem_nil task)
    have hkey : task.key ∈
        (plan.filter (isDue state nowSeconds)).map (fun t => t.key) :=
      List.mem_map_of_mem _ htask
    simp [runHeartbeatOnce, hne, runDueTasks_lastChecks, hkey]
  · intro hne
    have hne' : ¬ (plan.filter (isDue state nowSeconds)).isEmpty := by
      rwa [List.isEmpty_iff]
    simp [runHeartbeatOnce, hne']
  · by_cases hdue : (plan.filter (isDue state nowSeconds)).isEmpty
    · simp [runHeartbeatOnce, hdue]
    · simp [runHeartbeatOnce, hdue]

/-- Witness for C3: with a throwing executor environment and two due
tasks, both tasks are attempted and stamped with the tick time, the state
is saved once, and the batch reports `ok = false`. -/
theorem runHeartbeatOnce_batch_wit :
    lookupKey
      (runHeartbeatOnce envThrow [taskWeather, taskNews] stateEmpty 10000
        "2026-01-01T00:00:00Z").state.lastChecks "weather" = some 10000 ∧
    (runHeartbeatOnce envThrow [taskWeather, taskNews] stateEmpty 10000
      "2026-01-01T00:00:00Z").saves = 1 ∧
    executeTask envThrow taskWeather =
      { key := "weather", title := "Weather & Context", ok := false,
        summary := "boom", urgent := none } := by
  have h := runHeartbeatOnce_batch envThrow [taskWeather, taskNews]
    stateEmpty 10000 "2026-01-01T00:00:00Z"
  refine ⟨?_, h.2.2.2.1 (by decide), ?_⟩
  · exact h.2.2.1 taskWeather (by decide)
  · exact h.2.1 taskWeather "boom" (by decide) rfl

/-- Claim C4 (amended): a task is due exactly when
`nowSeconds - (lastChecks[key] ?? 0) ≥ intervalSeconds`; with an absent
`lastChecks[key]` and a positive interval the task is due whenever
`nowSeconds ≥ intervalSeconds` (for instance at any realistic epoch
timestamp); with `lastChecks[key] = now - interval + 1` it is not due;
with `lastChecks[key] = now - interval` it is due (inclusive boundary). -/
theorem isDue_spec (state : HeartbeatState) (nowSeconds : Int)
    (task : HeartbeatTask) :
    (isDue state nowSeconds task = true ↔
      task.intervalSeconds ≤
        nowSeconds - (lookupKey state.lastChecks task.key).getD 0) ∧
    (lookupKey state.lastChecks task.key = none →
      0 < task.intervalSeconds → task.intervalSeconds ≤ nowSeconds →
      isDue state nowSeconds task = true) ∧
    (lookupKey state.lastChecks task.key =
        some (nowSeconds - task.intervalSeconds + 1) →
      isDue state nowSeconds task = false) ∧
    (lookupKey state.lastChecks task.key =
        some (nowSeconds - task.intervalSeconds) →
      isDue state nowSeconds task = true) := by
  refine ⟨?_, ?_, ?_, ?_⟩
  · simp [isDue]
  · intro habs _ hle
    simp [isDue, habs]
    omega
  · intro hlast
    simp [isDue, hlast]
    omega
  · intro hlast
    simp [isDue, hlast]

/-- Counterexample for C4 as stated: with empty `lastChecks` and the
positive interval `3600`, a tick at `nowSeconds = 0` finds the task not
due, because the due test compares `now - 0` against the interval. -/
theorem isDue_counterexample :
    isDue { lastChecks := [], lastResults := none } 0
      { key := "k", title := "t", intervalSeconds := 3600,
        description := none } = false := by decide

/-- Witness for C4: never-run task due at a realistic epoch tick; task
checked one second inside its interval not due; exact-boundary task
due. -/
theorem isDue_spec_wit :
    isDue stateEmpty 1700000000 taskWeather = true ∧
    isDue { lastChecks := [("weather", 1699996401)], lastResults := none }
      1700000000 taskWeather = false ∧
    isDue { lastChecks := [("weather", 1699996400)], lastResults := none }
      1700000000 taskWeather = true := by
  refine ⟨?_, ?_, ?_⟩
  · exact (isDue_spec stateEmpty 1700000000 taskWeather).2.1 (by decide)
      (by decide) (by decide)
  · exact (isDue_spec
      { lastChecks := [("weather", 1699996401)], lastResults := none }
      1700000000 taskWeather).2.2.1 (by decide)
  · exact (isDue_spec
      { lastChecks := [("weather", 1699996400)], lastResults := none }
      1700000000 taskWeather).2.2.2 (by decide)

/-- Claim C5: the foreground runner's exit code is `124` whenever the
timeout fired (and the result reports `timedOut = true`), the underlying
process's exit code when the process closed normally without timeout, and
`1` when the OS could not spawn the process, in which case the OS error
message is folded into the returned stderr. -/
theorem runForegroundCommand_exit_codes (capturedOut capturedErr : String)
    (truncated timedOut : Bool) (outcome : SpawnOutcome) :
    (∀ msg, outcome = .spawnError msg →
      runForegroundCommand capturedOut capturedErr truncated timedOut
          outcome =
        { stdout := capturedOut
          stderr := jsTrim (capturedErr ++ "\n" ++ msg)
          exitCode := 1
          timedOut := false
          truncated := truncated }) ∧
    (∀ code, outcome = .closed code → timedOut = true →
      (runForegroundCommand capturedOut capturedErr truncated timedOut
        outcome).exitCode = 124 ∧
      (runForegroundCommand capturedOut capturedErr truncated timedOut
        outcome).timedOut = true) ∧
    (∀ c, outcome = .closed (some c) → timedOut = false →
      (runForegroundCommand capturedOut capturedErr truncated timedOut
        outcome).exitCode = c ∧
      (runForegroundCommand capturedOut capturedErr truncated timedOut
        outcome).timedOut = false) := by
  refine ⟨?_, ?_, ?_⟩
  · intro msg hout
    subst hout
    rfl
  · intro code hout ht
    subst hout
    subst ht
    exact ⟨rfl, rfl⟩
  · intro c hout ht
    subst hout
    subst ht
    exact ⟨rfl, rfl⟩

/-- Witness for C5: a spawn failure yields exit code `1` with the OS
message in stderr; a timed-out `close` yields `124`; a normal `close`
with code `7` yields `7`. -/
theorem runForegroundCommand_exit_codes_wit :
    runForegroundCommand "" "" false false
        (.spawnError "spawn zsh ENOENT") =
      { stdout := "", stderr := jsTrim ("" ++ "\n" ++ "spawn zsh ENOENT"),
        exitCode := 1, timedOut := false, truncated := false } ∧
    (runForegroundCommand "out" "err" false true
      (.closed (some 0))).exitCode = 124 ∧
    (runForegroundCommand "out" "err" false false
      (.closed (some 7))).exitCode = 7 :=
  ⟨(runForegroundCommand_exit_codes "" "" false false
      (.spawnError "spawn zsh ENOENT")).1 "spawn zsh ENOENT" rfl,
   ((runForegroundCommand_exit_codes "out" "err" false true
      (.closed (some 0))).2.1 (some 0) rfl rfl).1,
   ((runForegroundCommand_exit_codes "out" "err" false false
      (.closed (some 7))).2.2 7 rfl rfl).1⟩

/-- Claim C6: when no task is due, the tick returns immediately with
`ok = true`, `dueCount = 0`, no runs, the state unchanged, and no
state-file write. -/
theorem runHeartbeatOnce_noop (env : String → ExecBehavior)
    (plan : List HeartbeatTask) (state : HeartbeatState)
    (nowSeconds : Int) (nowIso : String)
    (h : plan.filter (isDue state nowSeconds) = []) :
    runHeartbeatOnce env plan state nowSeconds nowIso =
      { ok := true, dueCount := 0, runs := [], state := state,
        saves := 0 } := by
  simp [runHeartbeatOnce, h]

/-- Witness for C6: with one task checked 200 seconds ago against a
3600-second interval, the tick is a no-op and writes nothing. -/
theorem runHeartbeatOnce_noop_wit :
    runHeartbeatOnce envThrow [taskWeather]
      { lastChecks := [("weather", 7000)], lastResults := none } 7200
      "2026-01-01T02:00:00Z" =
      { ok := true, dueCount := 0, runs := []
        state := { lastChecks := [("weather", 7000)], lastResults := none }
        saves := 0 } :=
  runHeartbeatOnce_noop envThrow [taskWeather]
    { lastChecks := [("weather", 7000)], lastResults := none } 7200
    "2026-01-01T02:00:00Z" (by decide)

/-- Counterexample for C7 as stated: with a runtime record present and a
signal delivery that throws (the recorded process had already died), the
runtime record is NOT deleted — `clearRuntime()` sits after the kill
inside the `try`, and the `catch` returns without deleting. -/
theorem stopHeartbeatDaemon_counterexample :
    (stopHeartbeatDaemon
      (some { pid := 4242, startedAt := "2026-01-01T00:00:00Z",
              workspace := "/ws" })
      (fun _ => .error "kill ESRCH")).cleared = false := rfl

/-- Claim C7 (amended): with no runtime record, stop reports not-running;
with a runtime record, a termination signal is sent to the recorded pid
and on success the runtime record is deleted; when signal delivery throws
(the process had already died) the record is NOT deleted and stop reports
`stopped = false` with the error message. -/
theorem stopHeartbeatDaemon_spec (runtime : Option HeartbeatRuntime)
    (killSignal : Int → Except String Unit) :
    (runtime = none → stopHeartbeatDaemon runtime killSignal =
      { stopped := false, message := "Heartbeat service is not running."
        cleared := false }) ∧
    (∀ rt, runtime = some rt → killSignal rt.pid = .ok () →
      stopHeartbeatDaemon runtime killSignal =
        { stopped := true, message := "Heartbeat service stopped."
          cleared := true }) ∧
    (∀ rt msg, runtime = some rt → killSignal rt.pid = .error msg →
      stopHeartbeatDaemon runtime killSignal =
        { stopped := false, message := msg, cleared := false }) := by
  refine ⟨?_, ?_, ?_⟩
  · intro h
    subst h
    rfl
  · intro rt h hk
    subst h
    simp [stopHeartbeatDaemon, hk]
  · intro rt msg h hk
    subst h
    simp [stopHeartbeatDaemon, hk]

/-- Witness for C7 (amended): a live daemon is signalled and its record
cleared; with no record the stop reports not-running. -/
theorem stopHeartbeatDaemon_spec_wit :
    stopHeartbeatDaemon
      (some { pid := 7, startedAt := "2026-01-01T00:00:00Z",
              workspace := "/ws" }) (fun _ => .ok ()) =
      { stopped := true, message := "Heartbeat service stopped."
        cleared := true } ∧
    stopHeartbeatDaemon none (fun _ => .ok ()) =
      { stopped := false, message := "Heartbeat service is not running."
        cleared := false } :=
  ⟨(stopHeartbeatDaemon_spec
      (some { pid := 7, startedAt := "2026-01-01T00:00:00Z",
              workspace := "/ws" }) (fun _ => .ok ())).2.1
      { pid := 7, startedAt := "2026-01-01T00:00:00Z", workspace := "/ws" }
      rfl rfl,
   (stopHeartbeatDaemon_spec none (fun _ => .ok ())).1 rfl⟩

/-- The failure line of one candidate attempt is never the empty string
(it always contains the `": "` separator), so the final
`lastError || default` test always picks `lastError`. -/
theorem candidateFailMsg_ne_empty (spec : RecorderSpec)
    (reason extra : String) : candidateFailMsg spec reason extra ≠ "" := by
  intro h
  have hlen := congrArg String.length h
  have hsep : (": ").length = 2 := rfl
  have hnil : ("" : String).length = 0 := rfl
  simp only [candidateFailMsg, String.length_append] at hlen
  rw [hsep, hnil] at hlen
  omega

/-- When every candidate fails, the recorder loop throws the failure line
of the LAST candidate only — each failure overwrites `lastError`. -/
theorem recorderLoop_all_fail (attempt : RecorderSpec → SpawnAttempt) :
    ∀ (candidates : List RecorderSpec) (hne : candidates ≠ [])
      (acc : String),
      (∀ spec ∈ candidates, attempt spec ≠ .accepted) →
      ∃ reason extra,
        attempt (candidates.getLast hne) = .err reason extra ∧
        recorderLoop attempt candidates acc =
          .error
            (candidateFailMsg (candidates.getLast hne) reason extra)
  | [], hne, _, _ => absurd rfl hne
  | [spec], _, acc, hfail => by
    cases hsp : attempt spec with
    | accepted => exact absurd hsp (hfail spec (by simp))
    | err reason extra =>
      refine ⟨reason, extra, hsp, ?_⟩
      simp [recorderLoop, hsp, candidateFailMsg_ne_empty]
  | spec :: next :: rest, _, acc, hfail => by
    cases hsp : attempt spec with
    | accepted => exact absurd hsp (hfail spec (by simp))
    | err reason extra =>
      obtain ⟨r2, e2, h1, h2⟩ := recorderLoop_all_fail attempt
        (next :: rest) (by simp) (candidateFailMsg spec reason extra)
        (fun s hs => hfail s (List.mem_cons_of_mem _ hs))
      refine ⟨r2, e2, ?_, ?_⟩
      · rwa [List.getLast_cons]
      · rw [List.getLast_cons]
        simpa [recorderLoop, hsp] using h2

/-- Claim C8 (amended): when every recorder candidate fails to spawn,
`startVoiceRecording` fails with an error message carrying only the LAST
attempted candidate's label and failure reason — earlier candidates'
failures are overwritten, not aggregated. -/
theorem startVoiceRecording_all_fail (attempt : RecorderSpec → SpawnAttempt)
    (candidates : List RecorderSpec) (hne : candidates ≠ [])
    (hfail : ∀ spec ∈ candidates, attempt spec ≠ .accepted) :
    ∃ reason extra,
      attempt (candidates.getLast hne) = .err reason extra ∧
      startVoiceRecording attempt candidates =
        .error (candidateFailMsg (candidates.getLast hne) reason extra) := by
  obtain ⟨reason, extra, h1, h2⟩ :=
    recorderLoop_all_fail attempt candidates hne "" hfail
  exact ⟨reason, extra, h1, by simpa [startVoiceRecording, hne] using h2⟩

/-- Counterexample for C8 as stated: two candidates (`sox` then `ffmpeg`)
both fail, yet the thrown message is exactly `ffmpeg`'s failure line —
`sox`'s failure is not listed. -/
theorem startVoiceRecording_counterexample :
    startVoiceRecording
      (fun spec => .err ("spawn " ++ spec.cmd ++ " ENOENT") "")
      [soxSpec, ffmpegSpec] = .error "ffmpeg: spawn ffmpeg ENOENT" := by
  rfl

/-- Witness for C8 (amended): applying the theorem at two concrete
failing candidates yields the last candidate's failure line. -/
theorem startVoiceRecording_all_fail_wit :
    startVoiceRecording (fun spec => .err ("missing " ++ spec.cmd) "")
      [soxSpec, ffmpegSpec] = .error "ffmpeg: missing ffmpeg" := by
  obtain ⟨reason, extra, h1, h2⟩ := startVoiceRecording_all_fail
    (fun spec => .err ("missing " ++ spec.cmd) "") [soxSpec, ffmpegSpec]
    (by decide) (by decide)
  injection h1 with hr he
  rw [h2, ← hr, ← he]
  rfl

/-- Counterexample for C9 as stated: the recorder closes with exit code
`0` and the output file exists but is empty (size `0`); `stop()` still
resolves successfully, because only `existsSync` is consulted — the file
is never verified non-empty. -/
theorem sessionStop_counterexample :
    sessionStop (.closed (some 0)) (some 0) "" = .ok () := rfl

/-- Claim C9 (amended): `stop()` resolves successfully exactly when the
recorder exited with an accepted status (`0`, the `255`
interrupted-by-signal sentinel, or `null`) and the output file exists
(its non-emptiness is not checked); a rejected exit code raises
`Recorder exited with code …`, and a missing output file raises the
no-audio error with the captured stderr appended when non-blank. -/
theorem sessionStop_spec (recorderEnd : RecorderEnd) (file : Option Nat)
    (capturedStderr : String) :
    (stopRecorderProcess recorderEnd = .ok () ↔
      recorderEnd = .closed (some 0) ∨ recorderEnd = .closed (some 255) ∨
      recorderEnd = .closed none) ∧
    (sessionStop recorderEnd file capturedStderr = .ok () ↔
      stopRecorderProcess recorderEnd = .ok () ∧ file.isSome = true) ∧
    (∀ c, recorderEnd = .closed (some c) → c ≠ 0 → c ≠ 255 →
      sessionStop recorderEnd file capturedStderr =
        .error ("Recorder exited with code " ++ toString c)) ∧
    (file = none → stopRecorderProcess recorderEnd = .ok () →
      sessionStop recorderEnd file capturedStderr =
        .error (if jsTrim capturedStderr = "" then
            "Recording did not produce audio."
          else "Recording did not produce audio. "
            ++ jsTrim capturedStderr)) := by
  refine ⟨?_, ?_, ?_, ?_⟩
  · cases recorderEnd with
    | closed code =>
      cases code with
      | none => simp [stopRecorderProcess]
      | some c =>
        by_cases h0 : c = 0
        · simp [stopRecorderProcess, h0]
        · by_cases h255 : c = 255 <;>
            simp [stopRecorderProcess, h0, h255]
    | errored msg => simp [stopRecorderProcess]
  · cases hstop : stopRecorderProcess recorderEnd with
    | ok u =>
      cases u
      cases file with
      | none => simp [sessionStop, hstop]
      | some size => simp [sessionStop, hstop]
    | error e => simp [sessionStop, hstop]
  · intro c hend h0 h255
    subst hend
    simp [sessionStop, stopRecorderProcess, h0, h255]
  · intro hfile hstop
    subst hfile
    simp [sessionStop, hstop]

/-- Witness for C9 (amended): accepted sentinel code `255` with an
existing file resolves; code `1` raises the exit-code error; a clean exit
with a missing file raises the no-audio error. -/
theorem sessionStop_spec_wit :
    sessionStop (.closed (some 255)) (some 2048) "" = .ok () ∧
    sessionStop (.closed (some 1)) (some 2048) "" =
      .error "Recorder exited with code 1" ∧
    sessionStop (.closed none) none "" =
      .error "Recording did not produce audio." := by
  have h1 := sessionStop_spec (.closed (some 255)) (some 2048) ""
  have h2 := sessionStop_spec (.closed (some 1)) (some 2048) ""
  have h3 := sessionStop_spec (.closed none) (none : Option Nat) ""
  refine ⟨?_, ?_, ?_⟩
  · exact h1.2.1.mpr ⟨h1.1.mpr (Or.inr (Or.inl rfl)), rfl⟩
  · have := h2.2.2.1 1 rfl (by decide) (by decide)
    rw [this]
    rfl
  · have := h3.2.2.2 rfl (h3.1.mpr (Or.inr (Or.inr rfl)))
    rw [this]
    rfl

/-- Claim C10: a missing, unparseable, or wrongly-shaped state file loads
as the empty state — no jobs, empty `lastChecks` — so every subsequent
operation behaves as if nothing had ever been recorded (reconciling the
loaded empty store yields the empty store, and every heartbeat key reads
as never checked). -/
theorem corrupt_state_loads_empty :
    loadJobsState .missing = { jobs := [] } ∧
    loadJobsState .parseError = { jobs := [] } ∧
    loadJobsState (.parsed none) = { jobs := [] } ∧
    (∀ env, reconcileAllJobs env (loadJobsState .parseError) =
      { jobs := [] }) ∧
    loadHeartbeatState .missing = { lastChecks := [], lastResults := none } ∧
    loadHeartbeatState .parseError =
      { lastChecks := [], lastResults := none } ∧
    (loadHeartbeatState (.parsed (none, none))).lastChecks = [] ∧
    (∀ key, lookupKey (loadHeartbeatState .parseError).lastChecks key
      = none) :=
  ⟨rfl, rfl, rfl, fun _ => rfl, rfl, rfl, rfl, fun _ => rfl⟩

end Ainur
